import Mathlib

/-!
Verification of the real-time state synchronization layer of the
Flexbar YouTube Music plugin.

The definitions below are a shallow embedding of the JavaScript sources:

* `formatTrackState`   — `YouTubeMusicApi.formatTrackState` (keyHandler.js:353-382)
* `shouldNotifyStateChange`, `handleStateUpdate`, `scheduleReconnect`,
  `handleConnectionError`, `handleDisconnection`, `disconnect`,
  `connectStep`, `onConnectEvent`, `requestInitialStateStep`
                         — class `YouTubeMusicRealtime` (ytMusicRealtime.js)
* `authValidationLoop`, `parseRetrySeconds`
                         — `YouTubeMusicAuth.initializeAuthentication` (ytMusicAuth.js:37-80)

JavaScript values are modelled with `Option` for possibly-absent fields,
`Int` for JS numbers (every numeric comparison these claims depend on is
integer-exact), and `Except JsError` for code that can throw.
JS truthiness in `x || d` expressions is modelled by the `jsOr*` helpers
(`undefined`, `""`, `0` and `false` are falsy).
-/

namespace YTMD

/-- A thumbnail entry `{url, width, height}` of the raw payload. -/
structure Thumbnail where
  url : String
  width : Int
  height : Int
deriving DecidableEq

/-- The `player.queue` sub-object; only `repeatMode` is read by the normalizer. -/
structure RawQueue where
  repeatMode : Option Int
deriving DecidableEq

/-- The `state.video` sub-object of a raw upstream payload. `none` models an
absent (`undefined`) property. -/
structure RawVideo where
  title : Option String
  author : Option String
  album : Option String
  albumId : Option String
  durationSeconds : Option Int
  likeStatus : Option Int
  thumbnails : Option (List Thumbnail)
  id : Option String
  isLive : Option Bool
  videoType : Option Int
deriving DecidableEq

/-- The `state.player` sub-object of a raw upstream payload. -/
structure RawPlayer where
  trackState : Option Int
  videoProgress : Option Int
  volume : Option Int
  adPlaying : Option Bool
  queue : Option RawQueue
deriving DecidableEq

/-- A raw upstream payload (shape shared by the pull endpoint and the
`state-update` push event). -/
structure RawState where
  video : Option RawVideo
  player : Option RawPlayer
  playlistId : Option String
deriving DecidableEq

/-- JS `x || d` for an optional string: `undefined` and `""` are falsy. -/
def jsOrStr (x : Option String) (d : String) : String :=
  match x with
  | none => d
  | some s => if s = "" then d else s

/-- JS `x || null` for an optional string (used for `album`, `albumId`). -/
def jsOrNullStr (x : Option String) : Option String :=
  match x with
  | none => none
  | some s => if s = "" then none else some s

/-- JS `x || d` for an optional integer enum: `undefined` and `0` are falsy. -/
def jsOrInt (x : Option Int) (d : Int) : Int :=
  match x with
  | none => d
  | some v => if v = 0 then d else v

/-- JS `x || d` for an optional boolean: `undefined` and `false` are falsy. -/
def jsOrBool (x : Option Bool) (d : Bool) : Bool :=
  match x with
  | none => d
  | some b => if b then b else d

/-- The normalized snapshot: the object literal built by `formatTrackState`
(keyHandler.js:361-381), plus the `lastUpdate` timestamp that
`handleStateUpdate` adds on acceptance (ytMusicRealtime.js:219). -/
structure Snapshot where
  title : String
  artist : String
  album : Option String
  albumId : Option String
  duration : Int
  progress : Int
  isPlaying : Bool
  isPaused : Bool
  isBuffering : Bool
  volume : Int
  likeStatus : Option Int
  thumbnails : List Thumbnail
  videoId : Option String
  playlistId : Option String
  isLive : Bool
  videoType : Int
  adPlaying : Bool
  queue : Option RawQueue
  repeatMode : Int
  lastUpdate : Option Int
deriving DecidableEq

/-- A thrown JS exception (here always the `TypeError` raised by reading a
property of `undefined`). -/
inductive JsError where
  | typeError
deriving DecidableEq

/-- The object literal returned by `formatTrackState` when both `state.video`
and `state.player` are present (keyHandler.js:361-381), field by field:
`title: video.title || 'Unknown Title'`, `artist: video.author || 'Unknown
Artist'`, `album: video.album || null`, `albumId: video.albumId || null`,
`duration: video.durationSeconds || 0`, `progress: player.videoProgress || 0`,
`isPlaying: player.trackState === 1`, `isPaused: player.trackState === 0`,
`isBuffering: player.trackState === 2`, `volume: player.volume || 0`,
`likeStatus: video.likeStatus` (no coercion), `thumbnails: video.thumbnails
|| []`, `videoId: video.id`, `playlistId: state.playlistId`, `isLive:
video.isLive || false`, `videoType: video.videoType || -1`, `adPlaying:
player.adPlaying || false`, `queue: player.queue || null`, `repeatMode:
player.queue?.repeatMode || -1`. -/
def mkSnapshot (video : RawVideo) (player : RawPlayer) (playlistId : Option String) :
    Snapshot where
  title := jsOrStr video.title "Unknown Title"
  artist := jsOrStr video.author "Unknown Artist"
  album := jsOrNullStr video.album
  albumId := jsOrNullStr video.albumId
  duration := jsOrInt video.durationSeconds 0
  progress := jsOrInt player.videoProgress 0
  isPlaying := decide (player.trackState = some 1)
  isPaused := decide (player.trackState = some 0)
  isBuffering := decide (player.trackState = some 2)
  volume := jsOrInt player.volume 0
  likeStatus := video.likeStatus
  thumbnails := video.thumbnails.getD []
  videoId := video.id
  playlistId := playlistId
  isLive := jsOrBool video.isLive false
  videoType := jsOrInt video.videoType (-1)
  adPlaying := jsOrBool player.adPlaying false
  queue := player.queue
  repeatMode := jsOrInt (player.queue.bind RawQueue.repeatMode) (-1)
  lastUpdate := none

/-- `YouTubeMusicApi.formatTrackState(state)` (keyHandler.js:353-382).
Returns `null` (`ok none`) when `!state || !state.video`; when `state.player`
is `undefined`, evaluating `player.videoProgress` in the object literal throws
a `TypeError` (`error`); otherwise returns the normalized object. -/
def formatTrackState (state : Option RawState) : Except JsError (Option Snapshot) :=
  match state with
  | none => .ok none
  | some st =>
    match st.video with
    | none => .ok none
    | some video =>
      match st.player with
      | none => .error .typeError
      | some player => .ok (some (mkSnapshot video player st.playlistId))

/-! Realtime channel state machine (`YouTubeMusicRealtime`, ytMusicRealtime.js).
Instance fields become record fields; a pending `setTimeout` handle is
modelled by an `Option` holding the timer delay in milliseconds. The
connect-timeout of the in-flight attempt (a promise-local `setTimeout`) is
modelled by the flag `connectTimeoutPending`. -/

/-- Mutable instance state of `YouTubeMusicRealtime` (constructor,
ytMusicRealtime.js:9-21), with `socket` abstracted to its non-nullness and
`_handlersRegistered` (set lazily by `setupEventHandlers`) as a flag. -/
structure RealtimeState where
  socket : Bool
  isConnected : Bool
  connecting : Bool
  reconnectAttempts : Nat
  maxReconnectAttempts : Nat
  reconnectDelay : Nat
  lastState : Option Snapshot
  handlersRegistered : Bool
  connectionAttemptTimer : Option Nat
  connectTimeoutPending : Bool
deriving DecidableEq

/-- The state set up by the constructor (ytMusicRealtime.js:9-21):
`reconnectDelay` starts at 1000 ms and `maxReconnectAttempts` is 5. -/
def initialState : RealtimeState where
  socket := false
  isConnected := false
  connecting := false
  reconnectAttempts := 0
  maxReconnectAttempts := 5
  reconnectDelay := 1000
  lastState := none
  handlersRegistered := false
  connectionAttemptTimer := none
  connectTimeoutPending := false

/-- `disconnect()` (ytMusicRealtime.js:382-401): disconnects and nulls the
socket, clears both boolean flags and the handler-registration flag, and
resets `reconnectAttempts` to 0. It clears only the vestigial `_debugTimer`;
`connectionAttemptTimer` is left untouched, and the promise-local
connect-timeout is unreachable from here. -/
def disconnect (s : RealtimeState) : RealtimeState :=
  { s with socket := false
           isConnected := false
           connecting := false
           handlersRegistered := false
           reconnectAttempts := 0 }

/-- `scheduleReconnect()` (ytMusicRealtime.js:360-377): clears any previous
timer, increments the attempt counter, and arms a timer with delay
`min(reconnectDelay * 2^(reconnectAttempts - 1), 30000)` (post-increment
counter). -/
def scheduleReconnect (s : RealtimeState) : RealtimeState :=
  let attempts := s.reconnectAttempts + 1
  let delay := min (s.reconnectDelay * 2 ^ (attempts - 1)) 30000
  { s with reconnectAttempts := attempts
           connectionAttemptTimer := some delay }

/-- `handleConnectionError(error)` (ytMusicRealtime.js:330-338): marks the
channel disconnected and schedules a reconnect only while
`reconnectAttempts < maxReconnectAttempts`. -/
def handleConnectionError (s : RealtimeState) : RealtimeState :=
  let s1 := { s with isConnected := false }
  if s1.reconnectAttempts < s1.maxReconnectAttempts then scheduleReconnect s1 else s1

/-- `handleDisconnection(reason)` (ytMusicRealtime.js:343-355): like
`handleConnectionError`, but a caller-initiated disconnect (reason
`io client disconnect`) never schedules a reconnect. -/
def handleDisconnection (s : RealtimeState) (reason : String) : RealtimeState :=
  let s1 := { s with isConnected := false }
  if reason = "io client disconnect" then s1
  else if s1.reconnectAttempts < s1.maxReconnectAttempts then scheduleReconnect s1 else s1

/-- The auth collaborator as seen from `connect()`:
`ytMusicApi.getAuthenticationStatus()` and `ytMusicApi.getToken()`. -/
structure AuthApi where
  isAuthenticated : Bool
  token : Option String
deriving DecidableEq

/-- Outcome of the synchronous prelude of `connect()` (ytMusicRealtime.js:26-121),
naming each exit path of the JS code: `alreadyConnecting` is the
`return false` at line 31, `alreadyConnected` the `return true` at line 35,
`authError` either of the two `throw`s at lines 43/48, and `attemptStarted`
the path that creates the socket, registers handlers and arms the 15 s
connect-timeout. -/
inductive ConnectOutcome where
  | alreadyConnecting
  | alreadyConnected
  | authError
  | attemptStarted
deriving DecidableEq

/-- The synchronous part of `connect()` (ytMusicRealtime.js:26-81): guard
order is `connecting`, then `socket && isConnected`, then the
`socket && !isConnected` cleanup via `disconnect()`, then the two auth
checks; on the attempt path it sets `connecting`, creates the socket,
registers handlers (`setupEventHandlers`) and arms the connect-timeout. -/
def connectStep (api : AuthApi) (s : RealtimeState) : ConnectOutcome × RealtimeState :=
  if s.connecting then (.alreadyConnecting, s)
  else if s.socket && s.isConnected then (.alreadyConnected, s)
  else
    let s1 := if s.socket && !s.isConnected then disconnect s else s
    if !api.isAuthenticated then (.authError, s1)
    else
      match api.token with
      | none => (.authError, s1)
      | some _ =>
        (.attemptStarted,
          { s1 with connecting := true
                    socket := true
                    handlersRegistered := true
                    connectTimeoutPending := true })

/-- The `connect` event handler of the in-flight attempt
(ytMusicRealtime.js:83-92): clears the connect-timeout, marks the channel
connected, and resets the attempt counter to 0 and the base delay to 500 ms. -/
def onConnectEvent (s : RealtimeState) : RealtimeState :=
  { s with isConnected := true
           connecting := false
           reconnectAttempts := 0
           reconnectDelay := 500
           connectTimeoutPending := false }

/-- The `connect_error` event handler (ytMusicRealtime.js:94-102): clears the
connect-timeout, drops both flags and feeds the backoff path through
`handleConnectionError`. -/
def onConnectErrorEvent (s : RealtimeState) : RealtimeState :=
  handleConnectionError
    { s with isConnected := false
             connecting := false
             connectTimeoutPending := false }

/-- The 15 s connect-timeout handler (ytMusicRealtime.js:76-81): clears
`connecting` and performs a full `disconnect()`. -/
def onConnectTimeout (s : RealtimeState) : RealtimeState :=
  disconnect { s with connecting := false, connectTimeoutPending := false }

/-- `n` consecutive failure signals (each one a `connect_error`/non-intentional
disconnect reaching `handleConnectionError`) with no intervening call to
`connect()` or `disconnect()`. -/
def failN : Nat → RealtimeState → RealtimeState
  | 0, s => s
  | n + 1, s => handleConnectionError (failN n s)

/-- An authenticated API with a token, as needed for a successful `connect()`. -/
def apiOk : AuthApi where
  isAuthenticated := true
  token := some "token"

/-- The channel state right after a first successful connection: the attempt
started by `connect()` from the constructor state, completed by the `connect`
event (so `reconnectDelay = 500`, `reconnectAttempts = 0`). -/
def connectedBase : RealtimeState :=
  onConnectEvent (connectStep apiOk initialState).2

/-- `shouldNotifyStateChange(newState)` (ytMusicRealtime.js:252-299), with
`this.lastState` passed explicitly. The `meaningfulChanges` key loop
(lines 264-280) is unrolled in source order; all comparisons are JS `!==`
on the snapshot fields. -/
def meaningfulFieldChanged (l n : Snapshot) : Bool :=
  decide (l.title ≠ n.title) || decide (l.artist ≠ n.artist) ||
  decide (l.videoId ≠ n.videoId) || decide (l.isPlaying ≠ n.isPlaying) ||
  decide (l.isPaused ≠ n.isPaused) || decide (l.likeStatus ≠ n.likeStatus) ||
  decide (l.volume ≠ n.volume) || decide (l.repeatMode ≠ n.repeatMode)

/-- JS `Math.abs`. -/
def jsAbs (x : Int) : Int := if x < 0 then -x else x

/-- `shouldNotifyStateChange` proper: first snapshot always notifies; a null
new state never does; then the unrolled key comparisons, the
`Math.abs(Δprogress) > 2` seek check (the `x || 0` coercions are identities
here because snapshot progress fields are always numbers), and finally `true`
on any remaining progress change (the smooth-tick branch, lines 290-296). -/
def shouldNotifyStateChange (last new : Option Snapshot) : Bool :=
  match last with
  | none => true
  | some l =>
    match new with
    | none => false
    | some n =>
      if meaningfulFieldChanged l n then true
      else if jsAbs (n.progress - l.progress) > 2 then true
      else if n.progress ≠ l.progress then true
      else false

/-- `handleStateUpdate(state)` (ytMusicRealtime.js:196-247) at processing time
`now` (`Date.now()`): a thrown formatter error is caught (state unchanged), a
null formatted state is ignored, and otherwise the formatted state is stamped
with `lastUpdate = now` and stored into `lastState` in both branches of the
meaningful-change test; the returned flag says whether callbacks were
notified. -/
def handleStateUpdate (s : RealtimeState) (raw : Option RawState) (now : Int) :
    RealtimeState × Bool :=
  match formatTrackState raw with
  | .error _ => (s, false)
  | .ok none => (s, false)
  | .ok (some f0) =>
    let f := { f0 with lastUpdate := some now }
    let notify := shouldNotifyStateChange s.lastState (some f)
    ({ s with lastState := some f }, notify)

/-- `requestInitialState()` (ytMusicRealtime.js:474-507) with the REST fetch
result passed in: requires authentication, catches fetch/format throws, and on
a non-null formatted state stamps it with `now` and stores it into
`lastState` unconditionally. -/
def requestInitialStateStep (s : RealtimeState) (authOk : Bool)
    (fetched : Except JsError (Option RawState)) (now : Int) :
    RealtimeState × Option Snapshot :=
  if !authOk then (s, none)
  else
    match fetched with
    | .error _ => (s, none)
    | .ok raw =>
      match formatTrackState raw with
      | .error _ => (s, none)
      | .ok none => (s, none)
      | .ok (some f0) =>
        let f := { f0 with lastUpdate := some now }
        ({ s with lastState := some f }, some f)

/-! Startup authentication validation (`YouTubeMusicAuth.initializeAuthentication`,
ytMusicAuth.js:37-80): a retry loop around `getCurrentState()` with
`maxRetries = 10`, string-matched rate-limit detection, and a
`retry in (\d+) seconds` hint parsed from the error message. -/

/-- Strips `p` off the front of `l`, character by character. -/
def stripChars : List Char → List Char → Option (List Char)
  | [], l => some l
  | _, [] => none
  | p :: ps, c :: cs => if p = c then stripChars ps cs else none

/-- True when `pat` occurs as a contiguous substring of `l`
(JS `String.prototype.includes`). -/
def containsAt (pat : List Char) : List Char → Bool
  | [] => (stripChars pat []).isSome
  | c :: rest => (stripChars pat (c :: rest)).isSome || containsAt pat rest

/-- JS `msg.includes(pat)`. -/
def containsSub (msg pat : String) : Bool :=
  containsAt pat.toList msg.toList

/-- The rate-limit test of ytMusicAuth.js:51:
`error.message.includes('429') && error.message.includes('Rate limit exceeded')`. -/
def isRateLimitMsg (msg : String) : Bool :=
  containsSub msg "429" && containsSub msg "Rate limit exceeded"

/-- Takes the maximal leading digit run of a character list. -/
def takeDigits : List Char → List Char × List Char
  | [] => ([], [])
  | c :: rest =>
    if c.isDigit then
      let (ds, r) := takeDigits rest
      (c :: ds, r)
    else ([], c :: rest)

/-- Decimal value of a digit run (JS `parseInt` on the captured group). -/
def digitsVal (l : List Char) : Nat :=
  l.foldl (fun acc c => acc * 10 + (c.toNat - Char.toNat (Char.ofNat 48))) 0

/-- Tries to match the regex `retry in (\d+) seconds` at the head of `l`. -/
def matchRetryAt (l : List Char) : Option Nat :=
  match stripChars "retry in ".toList l with
  | none => none
  | some rest =>
    let (ds, r) := takeDigits rest
    if ds.isEmpty then none
    else
      match stripChars " seconds".toList r with
      | none => none
      | some _ => some (digitsVal ds)

/-- Scans for the first match of `retry in (\d+) seconds`. -/
def findRetry : List Char → Option Nat
  | [] => none
  | c :: rest =>
    match matchRetryAt (c :: rest) with
    | some n => some n
    | none => findRetry rest

/-- `error.message.match(/retry in (\d+) seconds/)` of ytMusicAuth.js:54,
yielding the parsed seconds value of the first match. -/
def parseRetrySeconds (msg : String) : Option Nat :=
  findRetry msg.toList

/-- Outcome of one `getCurrentState()` probe inside the validation loop:
either it succeeds or it throws with an error message. -/
inductive AttemptOutcome where
  | success
  | failure (msg : String)

/-- `maxRetries` of ytMusicAuth.js:38. -/
def maxRetries : Nat := 10

/-- The retry loop body of ytMusicAuth.js:40-75, with the outcome of attempt
`i` given by `outcomes i` and the fuel tracking the remaining loop
iterations. Returns whether validation succeeded together with the list of
waits (in ms) performed between attempts: attempt 0 failing with a rate-limit
message waits `(retrySeconds + 1) * 1000` ms where `retrySeconds` is the
parsed hint or the fallback 3; later rate-limited attempts before the last
wait a constant 1000 ms; the last attempt and every non-rate-limit failure
break out of the loop without waiting. -/
def authGo (outcomes : Nat → AttemptOutcome) : Nat → Nat → Bool × List Nat
  | 0, _ => (false, [])
  | rem + 1, i =>
    match outcomes i with
    | .success => (true, [])
    | .failure msg =>
      if isRateLimitMsg msg then
        if i = 0 then
          let retrySeconds := (parseRetrySeconds msg).getD 3
          let out := authGo outcomes rem (i + 1)
          (out.1, (retrySeconds + 1) * 1000 :: out.2)
        else if i < maxRetries - 1 then
          let out := authGo outcomes rem (i + 1)
          (out.1, 1000 :: out.2)
        else (false, [])
      else (false, [])

/-- The whole validation loop of `initializeAuthentication` for a saved token
(ytMusicAuth.js:40-75): up to `maxRetries` attempts starting at attempt 0. -/
def authValidationLoop (outcomes : Nat → AttemptOutcome) : Bool × List Nat :=
  authGo outcomes maxRetries 0

/-! Test fixtures: concrete raw payloads. -/

/-- A raw video with full identity (scenario 1 of the spec). -/
def wVideo : RawVideo :=
  ⟨some "A", some "B", none, none, some 60, some 1, none, some "v1", none, none⟩

/-- A raw player that is playing (`trackState = 1`). -/
def wPlayer : RawPlayer := ⟨some 1, some 10, some 50, none, none⟩

/-- A raw player with an out-of-range `trackState` (the upstream "unknown"
value −1). -/
def unknownPlayer : RawPlayer := ⟨some (-1), some 10, some 50, none, none⟩

/-- A raw video with every field absent. -/
def emptyVideo : RawVideo := ⟨none, none, none, none, none, none, none, none, none, none⟩

/-- A raw player with every field absent. -/
def emptyPlayer : RawPlayer := ⟨none, none, none, none, none⟩

/-- A raw video lacking both `title` and `id` (no "minimal video identity"). -/
def noIdentVideo : RawVideo :=
  ⟨none, some "B", none, none, some 60, none, none, none, none, none⟩

/-! ## C1 — flag exclusivity of the normalizer -/

/-- C1 counterexample: the claim says the three flags are all false only when
the title is empty, but the payload `{video: {title:"A", ...}, player:
{trackState:-1, ...}}` normalizes to a snapshot with all three flags false
and the non-empty title `"A"`. -/
theorem c1_counterexample :
    formatTrackState (some ⟨some wVideo, some unknownPlayer, none⟩) =
      .ok (some (mkSnapshot wVideo unknownPlayer none)) ∧
    (mkSnapshot wVideo unknownPlayer none).isPlaying = false ∧
    (mkSnapshot wVideo unknownPlayer none).isPaused = false ∧
    (mkSnapshot wVideo unknownPlayer none).isBuffering = false ∧
    (mkSnapshot wVideo unknownPlayer none).title = "A" ∧
    ¬ (mkSnapshot wVideo unknownPlayer none).title = "" := by
  refine ⟨rfl, ?_, ?_, ?_, rfl, ?_⟩ <;> decide

/-- C1 (amended): for every payload accepted with both `video` and `player`
present, the three flags are pairwise mutually exclusive (they are derived
from the single upstream enum `trackState`, 0 = paused, 1 = playing,
2 = buffering); all three are false exactly when `trackState` is none of
0, 1, 2 — independently of the title, which is never empty (a missing or
empty title is replaced by `Unknown Title`). -/
theorem c1_flags_exclusive (v : RawVideo) (p : RawPlayer) (pid : Option String)
    (snap : Snapshot)
    (h : formatTrackState (some ⟨some v, some p, pid⟩) = .ok (some snap)) :
    ¬ (snap.isPlaying = true ∧ snap.isPaused = true) ∧
    ¬ (snap.isPlaying = true ∧ snap.isBuffering = true) ∧
    ¬ (snap.isPaused = true ∧ snap.isBuffering = true) ∧
    ((snap.isPlaying = false ∧ snap.isPaused = false ∧ snap.isBuffering = false) ↔
      (p.trackState ≠ some 0 ∧ p.trackState ≠ some 1 ∧ p.trackState ≠ some 2)) ∧
    snap.title ≠ "" := by
  have hs : mkSnapshot v p pid = snap := by
    simpa [formatTrackState] using h
  subst hs
  refine ⟨?_, ?_, ?_, ?_, ?_⟩
  · simp only [mkSnapshot, decide_eq_true_eq]
    rintro ⟨h1, h0⟩
    rw [h1] at h0
    exact absurd (Option.some.inj h0) (by norm_num)
  · simp only [mkSnapshot, decide_eq_true_eq]
    rintro ⟨h1, h2⟩
    rw [h1] at h2
    exact absurd (Option.some.inj h2) (by norm_num)
  · simp only [mkSnapshot, decide_eq_true_eq]
    rintro ⟨h0, h2⟩
    rw [h0] at h2
    exact absurd (Option.some.inj h2) (by norm_num)
  · simp only [mkSnapshot, decide_eq_false_iff_not]
    tauto
  · show jsOrStr v.title "Unknown Title" ≠ ""
    unfold jsOrStr
    rcases v.title with _ | s
    · decide
    · by_cases hs : s = "" <;> simp [hs]

/-- C1 witness: the amended theorem applied to the concrete playing payload. -/
theorem c1_flags_exclusive_witness :
    ¬ ((mkSnapshot wVideo wPlayer none).isPlaying = true ∧
       (mkSnapshot wVideo wPlayer none).isPaused = true) ∧
    ¬ ((mkSnapshot wVideo wPlayer none).isPlaying = true ∧
       (mkSnapshot wVideo wPlayer none).isBuffering = true) ∧
    ¬ ((mkSnapshot wVideo wPlayer none).isPaused = true ∧
       (mkSnapshot wVideo wPlayer none).isBuffering = true) ∧
    (((mkSnapshot wVideo wPlayer none).isPlaying = false ∧
      (mkSnapshot wVideo wPlayer none).isPaused = false ∧
      (mkSnapshot wVideo wPlayer none).isBuffering = false) ↔
      (wPlayer.trackState ≠ some 0 ∧ wPlayer.trackState ≠ some 1 ∧
       wPlayer.trackState ≠ some 2)) ∧
    (mkSnapshot wVideo wPlayer none).title ≠ "" :=
  c1_flags_exclusive wVideo wPlayer none (mkSnapshot wVideo wPlayer none) rfl

/-! ## C4 — totality and defensive coercion of the normalizer -/

/-- C4 counterexample: the claim says the normalizer never throws even when
the `player` sub-object is absent, but on `{video: {...}, player: undefined}`
reading `player.videoProgress` raises a `TypeError`. -/
theorem c4_counterexample :
    formatTrackState (some ⟨some wVideo, none, none⟩) = .error .typeError := rfl

/-- C4 (amended): when both `video` and `player` are present the normalizer
does not throw and coerces missing numerics (`durationSeconds`,
`videoProgress`, `volume`) to 0 and a missing queue `repeatMode` to −1, but
`likeStatus` is passed through uncoerced (a missing `likeStatus` stays
`undefined` rather than −1); when `player` is absent it throws (callers wrap
it in try/catch). -/
theorem c4_defensive_coercion (v : RawVideo) (p : RawPlayer) (pid : Option String) :
    formatTrackState (some ⟨some v, some p, pid⟩) = .ok (some (mkSnapshot v p pid)) ∧
    (v.durationSeconds = none → (mkSnapshot v p pid).duration = 0) ∧
    (p.videoProgress = none → (mkSnapshot v p pid).progress = 0) ∧
    (p.volume = none → (mkSnapshot v p pid).volume = 0) ∧
    (p.queue = none → (mkSnapshot v p pid).repeatMode = -1) ∧
    (mkSnapshot v p pid).likeStatus = v.likeStatus := by
  refine ⟨rfl, ?_, ?_, ?_, ?_, rfl⟩ <;> intro h <;> simp [mkSnapshot, jsOrInt, h]

/-- C4 witness: the amended theorem applied to the payload with every
optional field absent. -/
theorem c4_defensive_coercion_witness :
    formatTrackState (some ⟨some emptyVideo, some emptyPlayer, none⟩) =
      .ok (some (mkSnapshot emptyVideo emptyPlayer none)) ∧
    (mkSnapshot emptyVideo emptyPlayer none).duration = 0 ∧
    (mkSnapshot emptyVideo emptyPlayer none).progress = 0 ∧
    (mkSnapshot emptyVideo emptyPlayer none).volume = 0 ∧
    (mkSnapshot emptyVideo emptyPlayer none).repeatMode = -1 ∧
    (mkSnapshot emptyVideo emptyPlayer none).likeStatus = none := by
  have h := c4_defensive_coercion emptyVideo emptyPlayer none
  exact ⟨h.1, h.2.1 rfl, h.2.2.1 rfl, h.2.2.2.1 rfl, h.2.2.2.2.1 rfl, h.2.2.2.2.2⟩

/-! ## C8 — when the normalizer returns null, and what the caller does -/

/-- C8 counterexample: the claim says the normalizer returns null exactly when
the payload lacks both title and id, but a payload whose `video` object has
neither still normalizes to a snapshot titled `Unknown Title` (null is
returned only when the `video` object itself is absent). -/
theorem c8_counterexample :
    formatTrackState (some ⟨some noIdentVideo, some emptyPlayer, none⟩) =
      .ok (some (mkSnapshot noIdentVideo emptyPlayer none)) ∧
    noIdentVideo.title = none ∧ noIdentVideo.id = none ∧
    (mkSnapshot noIdentVideo emptyPlayer none).title = "Unknown Title" ∧
    formatTrackState (some ⟨some noIdentVideo, some emptyPlayer, none⟩) ≠ .ok none := by
  refine ⟨rfl, rfl, rfl, rfl, ?_⟩
  simp [formatTrackState]

/-- C8 (amended): the normalizer returns null exactly when the payload or its
`video` sub-object is absent; and a null result leaves the caller's stored
snapshot (and its notification behavior) unchanged. -/
theorem c8_null_keeps_previous :
    (∀ raw : Option RawState,
      formatTrackState raw = .ok none ↔ raw.bind RawState.video = none) ∧
    (∀ (s : RealtimeState) (raw : Option RawState) (now : Int),
      formatTrackState raw = .ok none → handleStateUpdate s raw now = (s, false)) := by
  constructor
  · intro raw
    rcases raw with _ | ⟨video, player, pid⟩
    · simp [formatTrackState]
    · rcases video with _ | v
      · simp [formatTrackState]
      · rcases player with _ | p <;> simp [formatTrackState]
  · intro s raw now h
    simp [handleStateUpdate, h]

/-- C8 witness: a payload without a `video` object normalizes to null and is
ignored by `handleStateUpdate`. -/
theorem c8_null_keeps_previous_witness :
    (formatTrackState (some ⟨none, none, none⟩) = .ok none ↔
      (some (⟨none, none, none⟩ : RawState)).bind RawState.video = none) ∧
    handleStateUpdate initialState (some ⟨none, none, none⟩) 7 = (initialState, false) :=
  ⟨c8_null_keeps_previous.1 (some ⟨none, none, none⟩),
   c8_null_keeps_previous.2 initialState (some ⟨none, none, none⟩) 7 rfl⟩

/-! ## C5 — the change detector -/

/-- A raw player identical to `wPlayer` except for a 1-second progress tick. -/
def wPlayerTick : RawPlayer := ⟨some 1, some 11, some 50, none, none⟩

/-- C5 counterexample: on a pure smooth tick (progress 10 → 11, every listed
field equal, |Δ| ≤ 2) the claim requires the detector not to force a redraw
(returning false for the general consumer), but `shouldNotifyStateChange`
returns true — it notifies every registered callback on any progress
change. -/
theorem c5_counterexample :
    shouldNotifyStateChange (some (mkSnapshot wVideo wPlayer none))
      (some (mkSnapshot wVideo wPlayerTick none)) = true ∧
    meaningfulFieldChanged (mkSnapshot wVideo wPlayer none)
      (mkSnapshot wVideo wPlayerTick none) = false ∧
    ¬ jsAbs ((mkSnapshot wVideo wPlayerTick none).progress -
        (mkSnapshot wVideo wPlayer none).progress) > 2 := by
  refine ⟨?_, ?_, ?_⟩ <;> decide

/-- C5 (amended): the detector returns true when the previous snapshot is
absent; false when the new state is null; and otherwise true exactly when one
of the eight listed fields differs or the progress differs at all — a smooth
tick (0 < |Δ| ≤ 2) also notifies, and the single boolean result is fanned out
to all consumers alike (there is no per-consumer reason set). -/
theorem c5_change_detector :
    (∀ x, shouldNotifyStateChange none x = true) ∧
    (∀ l, shouldNotifyStateChange (some l) none = false) ∧
    (∀ l n, shouldNotifyStateChange (some l) (some n) = true ↔
      (l.title ≠ n.title ∨ l.artist ≠ n.artist ∨ l.videoId ≠ n.videoId ∨
       l.isPlaying ≠ n.isPlaying ∨ l.isPaused ≠ n.isPaused ∨
       l.likeStatus ≠ n.likeStatus ∨ l.volume ≠ n.volume ∨
       l.repeatMode ≠ n.repeatMode ∨ l.progress ≠ n.progress)) := by
  refine ⟨fun x => rfl, fun l => rfl, fun l n => ?_⟩
  simp only [shouldNotifyStateChange]
  split_ifs with h1 h2 h3
  · refine iff_of_true rfl ?_
    simp only [meaningfulFieldChanged, Bool.or_eq_true, decide_eq_true_eq] at h1
    tauto
  · refine iff_of_true rfl ?_
    have hneq : l.progress ≠ n.progress := by
      intro he
      rw [he, sub_self] at h2
      norm_num [jsAbs] at h2
    exact Or.inr (Or.inr (Or.inr (Or.inr (Or.inr (Or.inr (Or.inr (Or.inr hneq)))))))
  · refine iff_of_true rfl ?_
    exact Or.inr (Or.inr (Or.inr (Or.inr (Or.inr (Or.inr (Or.inr (Or.inr (Ne.symm h3))))))))
  · simp only [meaningfulFieldChanged, Bool.or_eq_true, decide_eq_true_eq, not_or] at h1
    push_neg at h1 h3
    refine iff_of_false (by simp) ?_
    rintro (h | h | h | h | h | h | h | h | h) <;> tauto

/-! ## C3 — acceptance order of updates -/

/-- A raw player for a later-arriving but older pull result (paused at
progress 20). -/
def wPlayerB : RawPlayer := ⟨some 0, some 20, some 30, none, none⟩

/-- The stored snapshot, accepted at epoch-millis 1000. -/
def snapOld : Snapshot := { mkSnapshot wVideo wPlayer none with lastUpdate := some 1000 }

/-- A connected channel currently holding `snapOld`. -/
def stateWithOld : RealtimeState := { connectedBase with lastState := some snapOld }

/-- The raw payload of the racing update. -/
def rawNew : Option RawState := some ⟨some wVideo, some wPlayerB, none⟩

/-- C3 counterexample: with `snapOld` stored at timestamp 1000, an update
processed at the earlier clock value 500 still overwrites the stored
snapshot — there is no timestamp comparison, acceptance is purely by
processing order. -/
theorem c3_counterexample :
    stateWithOld.lastState = some snapOld ∧
    snapOld.lastUpdate = some 1000 ∧
    (handleStateUpdate stateWithOld rawNew 500).1.lastState =
      some { mkSnapshot wVideo wPlayerB none with lastUpdate := some 500 } ∧
    (handleStateUpdate stateWithOld rawNew 500).1.lastState ≠ some snapOld ∧
    (500 : Int) < 1000 := by
  refine ⟨rfl, rfl, ?_, ?_, by norm_num⟩ <;> decide

/-- C3 (amended): both `handleStateUpdate` and the `requestInitialState` pull
path overwrite `lastState` unconditionally with every non-null normalized
update, stamping it with the processing time; the stored timestamp is never
compared against the incoming one (it is used only for freshness checks), so
acceptance is last-processed-wins, not last-writer-wins by timestamp. -/
theorem c3_unconditional_overwrite :
    (∀ (s : RealtimeState) (raw : Option RawState) (now : Int) (f : Snapshot),
      formatTrackState raw = .ok (some f) →
      (handleStateUpdate s raw now).1.lastState = some { f with lastUpdate := some now }) ∧
    (∀ (s : RealtimeState) (fetched : Option RawState) (now : Int) (f : Snapshot),
      formatTrackState fetched = .ok (some f) →
      (requestInitialStateStep s true (.ok fetched) now).1.lastState =
        some { f with lastUpdate := some now }) := by
  constructor <;> intro s raw now f h <;>
    simp [handleStateUpdate, requestInitialStateStep, h]

/-- C3 witness: the amended theorem applied to the stored-older-timestamp
scenario of the counterexample. -/
theorem c3_unconditional_overwrite_witness :
    (handleStateUpdate stateWithOld rawNew 500).1.lastState =
      some { mkSnapshot wVideo wPlayerB none with lastUpdate := some 500 } ∧
    (requestInitialStateStep stateWithOld true (.ok rawNew) 500).1.lastState =
      some { mkSnapshot wVideo wPlayerB none with lastUpdate := some 500 } :=
  ⟨c3_unconditional_overwrite.1 stateWithOld rawNew 500 (mkSnapshot wVideo wPlayerB none) rfl,
   c3_unconditional_overwrite.2 stateWithOld rawNew 500 (mkSnapshot wVideo wPlayerB none) rfl⟩

/-! ## C2 — reconnect backoff -/

/-- C2 counterexample: after the first failure following a successful
connection the scheduled delay is 500 ms, not the claim's
`min(500 * 2^1, 30000) = 1000` ms — the code computes
`reconnectDelay * 2^(attempts - 1)`, so the claimed formula is off by one in
the exponent. -/
theorem c2_counterexample :
    (failN 1 connectedBase).connectionAttemptTimer = some 500 ∧
    (500 : Nat) ≠ min (500 * 2 ^ 1) 30000 :=
  ⟨rfl, by norm_num⟩

/-- C2 (amended): after `n` consecutive failure signals (1 ≤ n ≤ 5) with no
intervening `connect()`/`disconnect()`, starting from the state left by a
successful connection (base delay 500 ms), the scheduled delay equals
`min(500 * 2^(n-1), 30000)` ms — the first delay is 500 ms and later ones
double; a 6th consecutive failure signal schedules nothing new; before the
first successful connection the base delay is 1000 ms, and a reconnect
attempt that reaches `connect()` resets the counter (see the disconnect-reset
theorem), so the 5-attempt bound only governs failures with no intervening
`connect()` call. -/
theorem c2_backoff_delay (n : Nat) (h1 : 1 ≤ n) (h5 : n ≤ 5) :
    (failN n connectedBase).reconnectAttempts = n ∧
    (failN n connectedBase).connectionAttemptTimer =
      some (min (500 * 2 ^ (n - 1)) 30000) ∧
    (failN 6 connectedBase).reconnectAttempts = 5 ∧
    (failN 6 connectedBase).connectionAttemptTimer =
      (failN 5 connectedBase).connectionAttemptTimer ∧
    (handleConnectionError initialState).connectionAttemptTimer = some 1000 := by
  interval_cases n <;> exact ⟨rfl, rfl, rfl, rfl, rfl⟩

/-- C2 witness: the amended theorem at `n = 1`. -/
theorem c2_backoff_delay_witness :
    (1 : Nat) ≤ 1 ∧ (1 : Nat) ≤ 5 ∧
    ((failN 1 connectedBase).reconnectAttempts = 1 ∧
     (failN 1 connectedBase).connectionAttemptTimer =
       some (min (500 * 2 ^ (1 - 1)) 30000) ∧
     (failN 6 connectedBase).reconnectAttempts = 5 ∧
     (failN 6 connectedBase).connectionAttemptTimer =
       (failN 5 connectedBase).connectionAttemptTimer ∧
     (handleConnectionError initialState).connectionAttemptTimer = some 1000) :=
  ⟨by norm_num, by norm_num, c2_backoff_delay 1 (by norm_num) (by norm_num)⟩

/-! ## C6 — disconnect and pending timers -/

/-- A connected channel that has scheduled one reconnect: its backoff timer
(500 ms) is pending. -/
def pendingTimerState : RealtimeState := failN 1 connectedBase

/-- C6: the code violates the claim. `disconnect()` clears only the vestigial
`_debugTimer`; the pending reconnect-backoff timer survives it, and when that
timer fires its callback runs `connect()`, which starts a fresh connection
attempt after the intentional shutdown. (The `disconnect` socket event itself
is correctly suppressed via the reason `io client disconnect` — last
conjunct — so the stale timer is the only reconnect path, exactly the one the
spec demands be cancelled. The sibling copy of this class in the repository
does clear `connectionAttemptTimer` in `disconnect()`, marking the omission
here as a slip.) -/
theorem c6_stale_timer_bug :
    pendingTimerState.connectionAttemptTimer = some 500 ∧
    (disconnect pendingTimerState).connectionAttemptTimer = some 500 ∧
    (disconnect pendingTimerState).socket = false ∧
    (connectStep apiOk (disconnect pendingTimerState)).1 = .attemptStarted ∧
    handleDisconnection pendingTimerState "io client disconnect" =
      { pendingTimerState with isConnected := false } :=
  ⟨rfl, rfl, rfl, rfl, rfl⟩

/-! ## C7 — the connect() contract -/

/-- C7: the synchronous contract of `connect()`. Already-`Connected` (socket
present, connected, no attempt in flight) is a no-op returning success; a
call while `Connecting` yields the `AlreadyConnecting` result (realized in JS
as resolving `false` without side effects); without authentication or without
a token the call fails with the auth error (realized as a `throw`); and the
`connect` success event sets `Connected` and resets the backoff attempt
counter to 0. -/
theorem c7_connect_contract :
    (∀ (api : AuthApi) (s : RealtimeState),
      s.connecting = false → s.socket = true → s.isConnected = true →
      connectStep api s = (.alreadyConnected, s)) ∧
    (∀ (api : AuthApi) (s : RealtimeState),
      s.connecting = true → connectStep api s = (.alreadyConnecting, s)) ∧
    (∀ (api : AuthApi) (s : RealtimeState),
      s.connecting = false → ¬ (s.socket = true ∧ s.isConnected = true) →
      api.isAuthenticated = false → (connectStep api s).1 = .authError) ∧
    (∀ (api : AuthApi) (s : RealtimeState),
      s.connecting = false → ¬ (s.socket = true ∧ s.isConnected = true) →
      api.token = none → (connectStep api s).1 = .authError) ∧
    (∀ s, (onConnectEvent s).isConnected = true ∧ (onConnectEvent s).connecting = false ∧
      (onConnectEvent s).reconnectAttempts = 0) := by
  refine ⟨?_, ?_, ?_, ?_, fun s => ⟨rfl, rfl, rfl⟩⟩
  · intro api s hc hs hi
    simp [connectStep, hc, hs, hi]
  · intro api s hc
    simp [connectStep, hc]
  · intro api s hc hni hauth
    cases hsock : s.socket <;> cases hconn : s.isConnected <;>
      simp_all [connectStep]
  · intro api s hc hni htok
    rcases api with ⟨auth, tok⟩
    cases auth <;> cases hsock : s.socket <;> cases hconn : s.isConnected <;>
      simp_all [connectStep]

/-- C7 witness: each clause of the contract at a concrete state — the
connected state is a no-op, the in-flight attempt state returns
`alreadyConnecting`, and the unauthenticated / token-less calls fail. -/
theorem c7_connect_contract_witness :
    connectStep apiOk connectedBase = (.alreadyConnected, connectedBase) ∧
    connectStep apiOk (connectStep apiOk initialState).2 =
      (.alreadyConnecting, (connectStep apiOk initialState).2) ∧
    (connectStep ⟨false, none⟩ initialState).1 = .authError ∧
    (connectStep ⟨true, none⟩ initialState).1 = .authError ∧
    ((onConnectEvent initialState).isConnected = true ∧
     (onConnectEvent initialState).connecting = false ∧
     (onConnectEvent initialState).reconnectAttempts = 0) := by
  have h := c7_connect_contract
  exact ⟨h.1 apiOk connectedBase rfl rfl rfl,
         h.2.1 apiOk (connectStep apiOk initialState).2 rfl,
         h.2.2.1 ⟨false, none⟩ initialState rfl (by simp [initialState]) rfl,
         h.2.2.2.1 ⟨true, none⟩ initialState rfl (by simp [initialState]) rfl,
         h.2.2.2.2 initialState⟩

/-! ## C10 — disconnect fully resets the channel state -/

/-- C10: every `disconnect()` nulls the socket, clears `isConnected`,
`connecting` and the handler-registration flag, and resets
`reconnectAttempts` to 0 — so a subsequent failure cycle can schedule 5 fresh
automatic reconnection attempts (the counter climbs back from 0, and only a
6th consecutive failure stops scheduling). -/
theorem c10_disconnect_reset (s : RealtimeState) (hmax : s.maxReconnectAttempts = 5) :
    (disconnect s).socket = false ∧
    (disconnect s).isConnected = false ∧
    (disconnect s).connecting = false ∧
    (disconnect s).handlersRegistered = false ∧
    (disconnect s).reconnectAttempts = 0 ∧
    (∀ n, n ≤ 5 → (failN n (disconnect s)).reconnectAttempts = n) ∧
    (failN 6 (disconnect s)).reconnectAttempts = 5 := by
  have key : ∀ n, n ≤ 5 → (failN n (disconnect s)).reconnectAttempts = n ∧
      (failN n (disconnect s)).maxReconnectAttempts = 5 := by
    intro n hn
    induction n with
    | zero => exact ⟨rfl, by simp [failN, disconnect, hmax]⟩
    | succ k ih =>
      have hk := ih (Nat.le_of_succ_le hn)
      have hlt : k < 5 := by omega
      constructor
      · show (handleConnectionError (failN k (disconnect s))).reconnectAttempts = k + 1
        simp [handleConnectionError, scheduleReconnect, hk.1, hk.2, hlt]
      · show (handleConnectionError (failN k (disconnect s))).maxReconnectAttempts = 5
        simp [handleConnectionError, scheduleReconnect, hk.1, hk.2, hlt]
  have h5 := key 5 (by norm_num)
  refine ⟨rfl, rfl, rfl, rfl, rfl, fun n hn => (key n hn).1, ?_⟩
  show (handleConnectionError (failN 5 (disconnect s))).reconnectAttempts = 5
  simp [handleConnectionError, scheduleReconnect, h5.1, h5.2]

/-- C10 witness: disconnecting a channel mid-backoff (3 failures deep) resets
the counter, after which a full fresh cycle of 5 reconnects is scheduled and
the 6th failure schedules none. -/
theorem c10_disconnect_reset_witness :
    (disconnect (failN 3 connectedBase)).reconnectAttempts = 0 ∧
    (failN 5 (disconnect (failN 3 connectedBase))).reconnectAttempts = 5 ∧
    (failN 6 (disconnect (failN 3 connectedBase))).reconnectAttempts = 5 := by
  have h := c10_disconnect_reset (failN 3 connectedBase) rfl
  exact ⟨h.2.2.2.2.1, h.2.2.2.2.2.1 5 (by norm_num), h.2.2.2.2.2.2⟩

/-! ## C9 — startup authentication validation retries -/

/-- The unfolding of one loop iteration (the recursion is structural in the
fuel, so this is definitional). -/
theorem authGo_succ (outcomes : Nat → AttemptOutcome) (rem i : Nat) :
    authGo outcomes (rem + 1) i =
      match outcomes i with
      | .success => (true, [])
      | .failure msg =>
        if isRateLimitMsg msg then
          if i = 0 then
            let out := authGo outcomes rem (i + 1)
            (out.1, ((parseRetrySeconds msg).getD 3 + 1) * 1000 :: out.2)
          else if i < maxRetries - 1 then
            let out := authGo outcomes rem (i + 1)
            (out.1, 1000 :: out.2)
          else (false, [])
        else (false, []) := rfl

/-- The 429 error message thrown by `makeRequest` with the server's
retry-after hint in the body. -/
def msg429 : String :=
  "API request failed: 429 Too Many Requests - Rate limit exceeded, retry in 7 seconds"

/-- A 429 rate-limit message without a parsable retry-after hint. -/
def msg429NoHint : String :=
  "API request failed: 429 Too Many Requests - Rate limit exceeded"

/-- A non-rate-limit error message. -/
def msg401 : String := "API request failed: 401 Unauthorized - invalid token"

/-- Every probe comes back rate-limited with the hinted message. -/
def allRateLimited : Nat → AttemptOutcome := fun _ => .failure msg429

/-- Every probe comes back rate-limited without a hint. -/
def allRateLimitedNoHint : Nat → AttemptOutcome := fun _ => .failure msg429NoHint

/-- Every probe fails with a non-rate-limit error. -/
def allFailUnauthorized : Nat → AttemptOutcome := fun _ => .failure msg401

/-- Two rate-limited probes, then a non-rate-limit failure mid-loop. -/
def mixedOutcomes : Nat → AttemptOutcome :=
  fun i => if i < 2 then .failure msg429 else .failure msg401

/-- Whether consecutive entries of a delay list strictly increase. -/
def delaysIncreasing : List Nat → Bool
  | [] => true
  | [_] => true
  | a :: b :: rest => decide (a < b) && delaysIncreasing (b :: rest)

/-- C9 counterexample: the claim says the rate-limit retries use incrementing
backoff delays, but when every attempt is rate-limited with a 7-second hint
the waits are 8000 ms once and then a constant 1000 ms — the delay sequence
decreases after the first wait and never increments. -/
theorem c9_counterexample :
    (authValidationLoop allRateLimited).2 = 8000 :: List.replicate 8 1000 ∧
    delaysIncreasing (authValidationLoop allRateLimited).2 = false := by
  constructor <;> decide

/-- C9 (amended): validation retries rate-limited errors up to `maxRetries`
= 10 attempts; the first retry waits `(retryAfterSeconds + 1) * 1000` ms
where the hint is parsed from the body (`retry in 7 seconds` yields 7) with
the fixed fallback 3 s (wait 4000 ms) when absent; every later retry waits a
constant 1000 ms (not incrementing); and a non-rate-limit failure terminates
the loop immediately wherever it occurs — at any attempt index `i` with any
fuel remaining, the rest of the run is `(false, [])`, i.e. no further retry
and no further wait (in particular on attempt 0, and in a concrete mid-loop
run where two 429s are followed by a 401, validation stops with exactly the
two earlier waits). -/
theorem c9_auth_retry :
    parseRetrySeconds msg429 = some 7 ∧
    parseRetrySeconds msg429NoHint = none ∧
    (authValidationLoop allRateLimitedNoHint).2.head? = some 4000 ∧
    authValidationLoop allRateLimited = (false, 8000 :: List.replicate 8 1000) ∧
    (∀ outcomes : Nat → AttemptOutcome,
      (authValidationLoop outcomes).2.length ≤ maxRetries) ∧
    (∀ (outcomes : Nat → AttemptOutcome) (rem i : Nat) (msg : String),
      outcomes i = .failure msg → isRateLimitMsg msg = false →
      authGo outcomes (rem + 1) i = (false, [])) ∧
    (∀ (outcomes : Nat → AttemptOutcome) (msg : String),
      outcomes 0 = .failure msg → isRateLimitMsg msg = false →
      authValidationLoop outcomes = (false, [])) ∧
    authValidationLoop mixedOutcomes = (false, [8000, 1000]) := by
  have hlen : ∀ (outcomes : Nat → AttemptOutcome) (rem i : Nat),
      (authGo outcomes rem i).2.length ≤ rem := by
    intro outcomes rem
    induction rem with
    | zero => intro i; simp [authGo]
    | succ k ih =>
      intro i
      rw [authGo_succ]
      cases houtcome : outcomes i with
      | success => simp
      | failure msg =>
        by_cases hrl : isRateLimitMsg msg
        · by_cases hi : i = 0
          · simpa [hrl, hi] using Nat.succ_le_succ (ih (i + 1))
          · by_cases hlast : i < maxRetries - 1
            · simpa [hrl, hi, hlast] using Nat.succ_le_succ (ih (i + 1))
            · simp [hrl, hi, hlast]
        · simp [hrl]
  have hterm : ∀ (outcomes : Nat → AttemptOutcome) (rem i : Nat) (msg : String),
      outcomes i = .failure msg → isRateLimitMsg msg = false →
      authGo outcomes (rem + 1) i = (false, []) := by
    intro outcomes rem i msg hi hrl
    rw [authGo_succ, hi]
    simp [hrl]
  refine ⟨by decide, by decide, by decide, by decide,
          fun outcomes => hlen outcomes maxRetries 0, hterm, ?_, by decide⟩
  intro outcomes msg h0 hrl
  have h10 : authValidationLoop outcomes = authGo outcomes (9 + 1) 0 := rfl
  rw [h10]
  exact hterm outcomes 9 0 msg h0 hrl

/-- C9 witness: a non-rate-limit failure (HTTP 401) terminates validation
with no further retries — on the first probe, and also mid-loop at attempt
index 2 of the mixed run (two 429s, then a 401). -/
theorem c9_auth_retry_witness :
    allFailUnauthorized 0 = .failure msg401 ∧
    isRateLimitMsg msg401 = false ∧
    authGo allFailUnauthorized (9 + 1) 0 = (false, []) ∧
    authValidationLoop allFailUnauthorized = (false, []) ∧
    mixedOutcomes 2 = .failure msg401 ∧
    authGo mixedOutcomes (7 + 1) 2 = (false, []) :=
  ⟨rfl, by decide,
   c9_auth_retry.2.2.2.2.2.1 allFailUnauthorized 9 0 msg401 rfl (by decide),
   c9_auth_retry.2.2.2.2.2.2.1 allFailUnauthorized msg401 rfl (by decide),
   rfl,
   c9_auth_retry.2.2.2.2.2.1 mixedOutcomes 7 2 msg401 rfl (by decide)⟩

end YTMD
